import Mathlib

/-!
Verification of the request-dispatch core (`src/core/components/networking.js`)
of the pubnub-javascript repository.  Each section embeds one component of the
source file as executable Lean definitions and proves (or refutes) the frozen
claims about it.
-/

set_option maxRecDepth 4096

namespace Networking

/-! ## Origin rotator (networking.js lines 94-113)

State of the rotator: the provided FQDN (scheme + origin, line 60), the pool
size `_maxSubDomain` (20, line 57) and the round-robin counter
`_currentSubDomain` (line 58). -/

structure OriginState where
  providedFQDN : String
  maxSubDomain : Nat
  currentSubDomain : Nat
deriving DecidableEq

/-- JS `haystack.indexOf(needle) !== -1`: the needle occurs as a contiguous
substring of the haystack. -/
def strContains (haystack needle : String) : Bool :=
  haystack.toList.tails.any (fun t => needle.toList.isPrefixOf t)

/-- JS `String.prototype.replace` with a string pattern replaces only the
first occurrence of the pattern. -/
def replaceFirstList : List Char → List Char → List Char → List Char
  | [], _, _ => []
  | c :: rest, pat, repl =>
    if pat.isPrefixOf (c :: rest) then repl ++ (c :: rest).drop pat.length
    else c :: replaceFirstList rest pat repl

def replaceFirst (s pat repl : String) : String :=
  String.mk (replaceFirstList s.toList pat.toList repl.toList)

/-- `nextOrigin(failover)`, networking.js lines 94-113.  The random short
identifier that `utils.generateUUID().split('-')[0]` produces on the failover
path is an external random source; it is passed in as `uuidToken`.  Returns
the selected origin together with the updated rotator state. -/
def nextOrigin (st : OriginState) (failover : Bool) (uuidToken : String) :
    String × OriginState :=
  if strContains st.providedFQDN "pubsub." then
    if failover then
      (replaceFirst st.providedFQDN "pubsub" ("ps" ++ uuidToken), st)
    else
      let incremented := st.currentSubDomain + 1
      let c := if incremented ≥ st.maxSubDomain then 1 else incremented
      (replaceFirst st.providedFQDN "pubsub" ("ps" ++ toString c),
        ⟨st.providedFQDN, st.maxSubDomain, c⟩)
  else
    -- line 96: a custom origin (no "pubsub." routing token) is returned as is
    (st.providedFQDN, st)

/-- `k` successive non-failover calls `nextOrigin(false)`, threading the state. -/
def iterNextFalse (st : OriginState) : Nat → OriginState
  | 0 => st
  | k + 1 => iterNextFalse (nextOrigin st false "").2 k

lemma nextOrigin_false_state (st : OriginState)
    (hp : strContains st.providedFQDN "pubsub." = true) (hm : st.maxSubDomain = 20)
    (hc : st.currentSubDomain < 20) :
    (nextOrigin st false "").2 =
      ⟨st.providedFQDN, st.maxSubDomain, st.currentSubDomain % 19 + 1⟩ := by
  have harith : (if st.currentSubDomain + 1 ≥ 20 then 1 else st.currentSubDomain + 1)
      = st.currentSubDomain % 19 + 1 := by
    split <;> omega
  simp only [nextOrigin, hp, if_true, Bool.false_eq_true, if_false, hm]
  rw [harith]

lemma iterNextFalse_counter (k : Nat) : ∀ st : OriginState,
    strContains st.providedFQDN "pubsub." = true → st.maxSubDomain = 20 →
    st.currentSubDomain < 20 →
    (iterNextFalse st (k + 1)).currentSubDomain = (st.currentSubDomain + k) % 19 + 1 := by
  induction k with
  | zero =>
    intro st hp hm hc
    show (iterNextFalse (nextOrigin st false "").2 0).currentSubDomain = _
    rw [nextOrigin_false_state st hp hm hc]
    rfl
  | succ n ih =>
    intro st hp hm hc
    show (iterNextFalse (nextOrigin st false "").2 (n + 1)).currentSubDomain = _
    rw [nextOrigin_false_state st hp hm hc]
    rw [ih ⟨st.providedFQDN, st.maxSubDomain, st.currentSubDomain % 19 + 1⟩ hp hm
      (show st.currentSubDomain % 19 + 1 < 20 by omega)]
    show (st.currentSubDomain % 19 + 1 + n) % 19 + 1 = _
    omega

/-- C3: for a pool origin with pool size 20 and starting counter `c < 20`,
`k ≥ 1` calls of `nextOrigin(false)` leave the counter at
`(c + k - 1) % (poolSize - 1) + 1`, and the counter substituted into the
subdomain template is never 0. -/
theorem nextOrigin_pool_roundRobin (st : OriginState) (k : Nat)
    (hp : strContains st.providedFQDN "pubsub." = true) (hm : st.maxSubDomain = 20)
    (hc : st.currentSubDomain < 20) (hk : 1 ≤ k) :
    (iterNextFalse st k).currentSubDomain
      = (st.currentSubDomain + k - 1) % (st.maxSubDomain - 1) + 1
    ∧ (iterNextFalse st k).currentSubDomain ≠ 0 := by
  obtain ⟨n, rfl⟩ : ∃ n, k = n + 1 := ⟨k - 1, by omega⟩
  have h := iterNextFalse_counter n st hp hm hc
  refine ⟨?_, by omega⟩
  rw [h, hm]
  omega

/-- Witness for C3 at the default pool origin with counter 5 and k = 3. -/
theorem nextOrigin_pool_roundRobin_witness :
    (iterNextFalse ⟨"http://pubsub.pubnub.com", 20, 5⟩ 3).currentSubDomain
      = (5 + 3 - 1) % (20 - 1) + 1
    ∧ (iterNextFalse ⟨"http://pubsub.pubnub.com", 20, 5⟩ 3).currentSubDomain ≠ 0 :=
  nextOrigin_pool_roundRobin ⟨"http://pubsub.pubnub.com", 20, 5⟩ 3
    (by decide) rfl (by decide) (by decide)

/-- C4: for a custom origin (no "pubsub." routing token in the FQDN),
`nextOrigin` returns the provided FQDN unchanged and leaves the rotator state
unchanged, for both `failover = true` and `failover = false`. -/
theorem nextOrigin_custom_identity (st : OriginState)
    (h : strContains st.providedFQDN "pubsub." = false) :
    ∀ (failover : Bool) (tok : String),
      nextOrigin st failover tok = (st.providedFQDN, st) := by
  intro failover tok
  simp [nextOrigin, h]

/-- Witness for C4 at a concrete custom origin. -/
theorem nextOrigin_custom_identity_witness :
    nextOrigin ⟨"https://example.com", 20, 3⟩ true "abcd"
      = ("https://example.com", ⟨"https://example.com", 20, 3⟩) :=
  nextOrigin_custom_identity ⟨"https://example.com", 20, 3⟩ (by decide) true "abcd"

/-- C10: for a pool origin, a failover call never modifies the rotator state
(in particular the subdomain counter), so a later `nextOrigin(false)` continues
the round-robin from exactly the counter value that preceded the failover
call. -/
theorem nextOrigin_failover_preserves_counter (st : OriginState) (tok : String)
    (hp : strContains st.providedFQDN "pubsub." = true) :
    (nextOrigin st true tok).2 = st
    ∧ (nextOrigin (nextOrigin st true tok).2 false "").2.currentSubDomain
        = (nextOrigin st false "").2.currentSubDomain := by
  have h2 : (nextOrigin st true tok).2 = st := by simp [nextOrigin, hp]
  exact ⟨h2, by rw [h2]⟩

/-- Witness for C10 at the default pool origin. -/
theorem nextOrigin_failover_preserves_counter_witness :
    (nextOrigin ⟨"http://pubsub.pubnub.com", 20, 7⟩ true "1a2b").2
        = ⟨"http://pubsub.pubnub.com", 20, 7⟩
    ∧ (nextOrigin (nextOrigin ⟨"http://pubsub.pubnub.com", 20, 7⟩ true "1a2b").2 false "").2.currentSubDomain
        = (nextOrigin ⟨"http://pubsub.pubnub.com", 20, 7⟩ false "").2.currentSubDomain :=
  nextOrigin_failover_preserves_counter ⟨"http://pubsub.pubnub.com", 20, 7⟩ "1a2b" (by decide)

/-! ## Parameter composer (networking.js lines 68-92)

JS objects used as query-parameter mappings are embedded as association lists
in insertion order; `key in data` is key presence, `data[key] = v` overwrites
the entry if present and appends it otherwise. -/

abbrev Params := List (String × String)

/-- First-match lookup, the JS property read. -/
def getKey : Params → String → Option String
  | [], _ => none
  | (k2, v) :: rest, k => if k2 = k then some v else getKey rest k

/-- JS `key in data`. -/
def hasKey (d : Params) (k : String) : Bool :=
  (getKey d k).isSome

/-- The slice of the external Config collaborator that networking.js reads. -/
structure Config where
  instanceIdEnabled : Bool
deriving DecidableEq

/-- The external Keychain collaborator (getters at networking.js call sites).
A key that is absent is the empty string, which is exactly what the falsiness
checks `if (!this._keychain.getX())` in the source test for. -/
structure Keychain where
  subscribeKey : String
  publishKey : String
  secretKey : String
  authKey : String
  uuid : String
  instanceId : String
deriving DecidableEq

/-- JS property assignment `data[k] = v`: overwrite the entry in place when
the key is present, append it otherwise (JS objects have unique keys and keep
insertion order). -/
def setKey : Params → String → String → Params
  | [], k, v => [(k, v)]
  | (k2, w) :: rest, k, v =>
    if k2 = k then (k2, v) :: rest else (k2, w) :: setKey rest k v

/-- The `utils.each` loop of `prepareParams` (lines 83-85): insert each core
parameter whose key is not already present in the call data. -/
def mergeCore (core data : Params) : Params :=
  core.foldl (fun acc kv => if hasKey acc kv.1 then acc else acc ++ [kv]) data

/-- `prepareParams(data)`, networking.js lines 80-92: merge the core
parameters into the call data, then overwrite `instanceid` from the keychain
when the instance-id feature flag is enabled. -/
def prepareParams (cfg : Config) (kc : Keychain) (core data : Params) : Params :=
  if cfg.instanceIdEnabled then setKey (mergeCore core data) "instanceid" kc.instanceId
  else mergeCore core data

lemma getKey_append_left {d : Params} {k v : String} (e : Params)
    (h : getKey d k = some v) : getKey (d ++ e) k = some v := by
  induction d with
  | nil => simp [getKey] at h
  | cons p rest ih =>
    obtain ⟨k2, w⟩ := p
    by_cases hk : k2 = k <;> simp_all [getKey]

lemma getKey_append_right {d : Params} {k : String} (e : Params)
    (h : getKey d k = none) : getKey (d ++ e) k = getKey e k := by
  induction d with
  | nil => rfl
  | cons p rest ih =>
    obtain ⟨k2, w⟩ := p
    by_cases hk : k2 = k <;> simp_all [getKey]

lemma getKey_none_of_hasKey_false {d : Params} {k : String}
    (h : hasKey d k = false) : getKey d k = none := by
  unfold hasKey at h
  cases hg : getKey d k with
  | none => rfl
  | some w => rw [hg] at h; simp at h

lemma mergeCore_some (core : Params) : ∀ (data : Params) {k v : String},
    getKey data k = some v → getKey (mergeCore core data) k = some v := by
  induction core with
  | nil => intro data k v h; exact h
  | cons kv rest ih =>
    intro data k v h
    show getKey (mergeCore rest (if hasKey data kv.1 then data else data ++ [kv])) k
      = some v
    split
    · exact ih data h
    · exact ih _ (getKey_append_left _ h)

lemma mergeCore_none (core : Params) : ∀ (data : Params) {k : String},
    getKey data k = none → getKey (mergeCore core data) k = getKey core k := by
  induction core with
  | nil => intro data k h; exact h
  | cons kv rest ih =>
    intro data k h
    obtain ⟨k2, w⟩ := kv
    show getKey (mergeCore rest (if hasKey data k2 then data else data ++ [(k2, w)])) k
      = getKey ((k2, w) :: rest) k
    by_cases hk : k2 = k
    · subst hk
      have hf : hasKey data k2 = false := by unfold hasKey; rw [h]; rfl
      rw [if_neg (by rw [hf]; exact Bool.false_ne_true)]
      have hsingle : getKey (data ++ [(k2, w)]) k2 = some w := by
        rw [getKey_append_right _ h]; simp [getKey]
      rw [mergeCore_some rest _ hsingle]
      simp [getKey]
    · have hrhs : getKey ((k2, w) :: rest) k = getKey rest k := by
        simp [getKey, hk]
      rw [hrhs]
      split
      · exact ih data h
      · refine ih _ ?_
        rw [getKey_append_right _ h]
        simp [getKey, hk]

lemma getKey_setKey_self : ∀ (d : Params) (k v : String),
    getKey (setKey d k v) k = some v := by
  intro d
  induction d with
  | nil => intro k v; simp [setKey, getKey]
  | cons p rest ih =>
    intro k v
    obtain ⟨k2, w⟩ := p
    by_cases hk : k2 = k
    · simp [setKey, getKey, hk]
    · simp [setKey, getKey, hk, ih]

lemma getKey_setKey_ne : ∀ (d : Params) (k v k2 : String), k2 ≠ k →
    getKey (setKey d k v) k2 = getKey d k2 := by
  intro d
  induction d with
  | nil => intro k v k2 hne; simp [setKey, getKey, hne.symm]
  | cons p rest ih =>
    intro k v k2 hne
    obtain ⟨k3, w⟩ := p
    by_cases hk3 : k3 = k
    · have h32 : k3 ≠ k2 := by rw [hk3]; exact hne.symm
      simp [setKey, getKey, hk3, h32, hne.symm]
    · by_cases h32 : k3 = k2
      · simp [setKey, getKey, hk3, h32, hne]
      · simp [setKey, getKey, hk3, h32, ih _ _ _ hne]

/-- C5 counterexample: when the instance-id flag is enabled, `prepareParams`
overwrites a caller-supplied `instanceid` entry with the keychain value, so
the composed mapping does not keep every key of the call params unchanged. -/
theorem prepareParams_instanceid_overwritten :
    getKey (prepareParams ⟨true⟩ ⟨"sub", "pub", "sec", "", "", "server-iid"⟩ []
        [("instanceid", "caller-iid")]) "instanceid"
      ≠ getKey [("instanceid", "caller-iid")] "instanceid" := by decide

/-- C5 (amended): the composed mapping keeps every key of the call params `P`
with its original value and takes from the core params `C` exactly the keys
absent from `P`, except for the key `instanceid` when the instance-id flag is
enabled, which is always set to the keychain instance id. -/
theorem prepareParams_composition (cfg : Config) (kc : Keychain)
    (core data : Params) :
    (∀ k v, getKey data k = some v → (cfg.instanceIdEnabled = true → k ≠ "instanceid") →
        getKey (prepareParams cfg kc core data) k = some v)
    ∧ (∀ k, getKey data k = none → (cfg.instanceIdEnabled = true → k ≠ "instanceid") →
        getKey (prepareParams cfg kc core data) k = getKey core k)
    ∧ (cfg.instanceIdEnabled = true →
        getKey (prepareParams cfg kc core data) "instanceid" = some kc.instanceId) := by
  unfold prepareParams
  refine ⟨?_, ?_, ?_⟩
  · intro k v h hni
    by_cases hflag : cfg.instanceIdEnabled = true
    · rw [if_pos hflag, getKey_setKey_ne _ _ _ _ (hni hflag)]
      exact mergeCore_some core data h
    · rw [if_neg hflag]
      exact mergeCore_some core data h
  · intro k h hni
    by_cases hflag : cfg.instanceIdEnabled = true
    · rw [if_pos hflag, getKey_setKey_ne _ _ _ _ (hni hflag)]
      exact mergeCore_none core data h
    · rw [if_neg hflag]
      exact mergeCore_none core data h
  · intro hflag
    rw [if_pos hflag]
    exact getKey_setKey_self _ _ _

/-- Witness for the amended C5: a caller-supplied channel survives the merge
and a core key absent from the call params is taken from the core mapping. -/
theorem prepareParams_composition_witness :
    getKey [("ch", "c1")] "ch" = some "c1"
    ∧ getKey (prepareParams ⟨false⟩ ⟨"s", "p", "k", "a", "u", "iid"⟩
        [("uuid", "core-u")] [("ch", "c1")]) "ch" = some "c1"
    ∧ getKey (prepareParams ⟨false⟩ ⟨"s", "p", "k", "a", "u", "iid"⟩
        [("uuid", "core-u")] [("ch", "c1")]) "uuid" = some "core-u" :=
  ⟨by decide,
   (prepareParams_composition ⟨false⟩ ⟨"s", "p", "k", "a", "u", "iid"⟩
      [("uuid", "core-u")] [("ch", "c1")]).1 "ch" "c1" (by decide)
      (fun h => Bool.noConfusion h),
   by
    rw [(prepareParams_composition ⟨false⟩ ⟨"s", "p", "k", "a", "u", "iid"⟩
      [("uuid", "core-u")] [("ch", "c1")]).2.1 "uuid" (by decide)
      (fun h => Bool.noConfusion h)]
    decide⟩

/-! ## Access-control signing operations (networking.js lines 196-224 and 243-274)

`performGrant` and `performAudit` dereference identifiers that do not exist.
networking.js is an ES module, hence strict-mode code, so each such
dereference throws:

* lines 197-199 and 245-247 call `this._error(...)`, but no `_error` method
  or property is ever defined on the class (the other operations use
  `callback(this._r.validationError(...))` instead) — calling `undefined` is
  a `TypeError`;
* line 210 reads `this._networking.prepareParams`, but no `_networking`
  property is ever assigned on the class (the constructor assigns only
  `_config`, `_keychain`, `_crypto`, `_sendBeacon`, `_r`, `_maxSubDomain`,
  `_currentSubDomain`, `_providedFQDN`, `_coreParams` and the two origins),
  so `this._networking` is `undefined` and the property read is a
  `TypeError`;
* line 244 reads `args.auth_key`, but no identifier `args` is declared
  anywhere in the module — a `ReferenceError`, thrown before any keychain
  check of `performAudit` runs;
* line 212 (`if (!auth_key)`) reads the undeclared identifier `auth_key`
  (the parameter is named `authKey`) and line 216 calls the undefined
  `this._hmac_SHA256`; both lines are unreachable because line 210 throws
  first.

The embedding returns `Except JsRuntimeError`; `.error` is an uncaught
exception, and the signing pipeline of lines 201-221 is dead code. -/

inductive JsRuntimeError where
  | typeErr (msg : String)
  | referenceErr (msg : String)
  | parseErr (msg : String)
deriving DecidableEq

/-- `performGrant(authKey, data, callback)`, networking.js lines 196-224.
Control flow: the three keychain checks, each throwing a `TypeError` when the
key is missing because `this._error` does not exist; then line 210 throws a
`TypeError` because `this._networking` is undefined.  No request with a
`signature` field is ever produced. -/
def performGrant (kc : Keychain) (_authKey : String) (_data : Params) :
    Except JsRuntimeError Params :=
  if kc.subscribeKey = "" then .error (.typeErr "this._error is not a function")
  else if kc.publishKey = "" then .error (.typeErr "this._error is not a function")
  else if kc.secretKey = "" then .error (.typeErr "this._error is not a function")
  else .error (.typeErr "cannot read prepareParams of undefined")

/-- `performAudit(authKey, data, callback)`, networking.js lines 243-274.
Its first statement (line 244) reads `args.auth_key` with `args` undeclared,
so every invocation throws a `ReferenceError` before anything else runs. -/
def performAudit (_kc : Keychain) (_authKey : String) (_data : Params) :
    Except JsRuntimeError Params :=
  .error (.referenceErr "args is not defined")

/-- C1 (code bug): with all three keys present, `performGrant` throws before
reaching the signing code of lines 214-221, so no signature is ever computed
or attached to the outgoing parameters; the claimed signing algorithm is dead
code. -/
theorem performGrant_throws_before_signing :
    performGrant ⟨"sub-c-1", "pub-c-1", "sec-c-1", "", "", ""⟩ "auth-1" []
      = .error (.typeErr "cannot read prepareParams of undefined")
    ∧ ∀ d : Params,
        performGrant ⟨"sub-c-1", "pub-c-1", "sec-c-1", "", "", ""⟩ "auth-1" [] ≠ .ok d :=
  ⟨rfl, fun _ h => Except.noConfusion h⟩

/-- C2 (code bug): a grant with the subscribe key absent throws a `TypeError`
(`this._error` is not a function) instead of reporting a "Missing Subscribe
Key" validation error, and an audit with the same keychain throws a
`ReferenceError` (`args` is not defined) before any keychain check; the
transport is indeed never invoked, but no validation error naming the missing
key is produced. -/
theorem grant_audit_missing_key_throws :
    performGrant ⟨"", "pub-c-1", "sec-c-1", "", "", ""⟩ "" []
      = .error (.typeErr "this._error is not a function")
    ∧ performAudit ⟨"", "pub-c-1", "sec-c-1", "", "", ""⟩ "" []
      = .error (.referenceErr "args is not defined") :=
  ⟨rfl, rfl⟩

/-- C6 (code bug): even with all keys present and no auth key supplied, both
signing operations raise instead of completing: `performGrant` throws at line
210 (`this._networking` undefined; line 212, which would delete the stray
`auth` field, reads the undeclared `auth_key` and could only throw as well)
and `performAudit` throws at line 244 (`args` undefined). -/
theorem grant_audit_no_auth_raises :
    (∀ d : Params, ∃ e : JsRuntimeError,
        performGrant ⟨"subk", "pubk", "seck", "", "uuid-1", ""⟩ "" d = .error e)
    ∧ ∀ d : Params, ∃ e : JsRuntimeError,
        performAudit ⟨"subk", "pubk", "seck", "", "uuid-1", ""⟩ "" d = .error e :=
  ⟨fun _ => ⟨.typeErr "cannot read prepareParams of undefined", rfl⟩,
   fun _ => ⟨.referenceErr "args is not defined", rfl⟩⟩

/-! ## Dispatch response handling and the leave operation
(networking.js lines 276-303 and 502-515)

`_abstractedXDR` installs an `end` handler on the superagent request.  The
handler runs once per transport completion; what it passes to the completion
callback is modelled by `CallbackArg`.  `JSON.parse` is a host builtin; only
whether it succeeds matters here, so it is passed in as `jsonParses`.  The
handler calls `JSON.parse(resp.text)` (line 513) with no surrounding
try/catch, so a body that fails to parse throws an uncaught `SyntaxError` and
the callback is never invoked; an `.error` result models that uncaught
throw. -/

inductive CallbackArg where
  /-- `callback(err, null)`, line 506: transport-level failure. -/
  | transportError (e : String)
  /-- `callback(resp.error, null)`, line 509: application-level error body. -/
  | applicationError (e : String)
  /-- `callback(null, JSON.parse(resp.text))`, line 513. -/
  | parsedBody
  /-- `callback(null, {status: 200, action: "leave", ...})`, line 298:
  the synthesized beacon success of `performLeave`. -/
  | leaveSynthetic
  /-- `callback(this._r.validationError(msg))`: missing-credential fast fail. -/
  | validationError (msg : String)
deriving DecidableEq

/-- The superagent response object as the handler reads it: an `error` field
(`none` when falsy) and the raw body text. -/
structure XdrResp where
  error : Option String
  text : String
deriving DecidableEq

/-- The `end` handler of `_abstractedXDR`, networking.js lines 505-514,
returning the list of completion-callback invocations it performs. -/
def abstractedXDREnd (jsonParses : String → Bool) (err : Option String)
    (resp : XdrResp) : Except JsRuntimeError (List CallbackArg) :=
  match err with
  | some e => .ok [.transportError e]
  | none =>
    match resp.error with
    | some e => .ok [.applicationError e]
    | none =>
      if jsonParses resp.text then .ok [.parsedBody]
      else .error (.parseErr "unexpected token in JSON")

/-- Environment for `performLeave`: whether `this._sendBeacon` is available
(truthy, line 296) and, if so, what it returns (line 297). -/
inductive BeaconEnv where
  | unavailable
  | available (sendResult : Bool)
deriving DecidableEq

/-- The completion-callback behaviour of `performLeave`, networking.js lines
276-303.  URL and query-parameter construction (lines 281-294) do not affect
which callbacks run and are modelled separately; when the beacon branch is
not taken the request goes through `_xdr` and the callbacks are those of the
`end` handler, with `err`/`resp` the eventual transport outcome. -/
def performLeaveCallbacks (kc : Keychain) (beacon : BeaconEnv)
    (jsonParses : String → Bool) (err : Option String) (resp : XdrResp) :
    Except JsRuntimeError (List CallbackArg) :=
  if kc.subscribeKey = "" then .ok [.validationError "Missing Subscribe Key"]
  else
    match beacon with
    | .available true => .ok [.leaveSynthetic]
    | .available false => .ok []
    | .unavailable => abstractedXDREnd jsonParses err resp

/-- Number of completion-callback invocations of one operation outcome. -/
def callbackCount : Except JsRuntimeError (List CallbackArg) → Nat
  | .ok l => l.length
  | .error _ => 0

/-- C7 counterexample: when `sendBeacon` is available but returns false,
`performLeave` reaches a terminal state having invoked the completion
callback zero times (lines 296-299 have no else branch and no `_xdr`
fallback), contradicting the exactly-once contract. -/
theorem performLeave_beacon_false_drops_callback :
    callbackCount (performLeaveCallbacks ⟨"subk", "", "", "", "uuid-1", ""⟩
      (.available false) (fun _ => true) none ⟨none, "[]"⟩) = 0 := rfl

/-- C7 (amended): the completion callback is invoked at most once on every
path; it is invoked exactly once except when the beacon send returns false,
or when the `_xdr` path gets a transport success whose body fails to parse
(the uncaught `JSON.parse` throw of C8); and when the beacon send succeeds the
single invocation is the synthesized leave success, produced immediately
without any transport outcome being consulted. -/
theorem performLeave_callback_discipline (kc : Keychain) (beacon : BeaconEnv)
    (jsonParses : String → Bool) (err : Option String) (resp : XdrResp) :
    callbackCount (performLeaveCallbacks kc beacon jsonParses err resp) ≤ 1
    ∧ (beacon ≠ .available false →
        (beacon = .unavailable → err = none → resp.error = none →
          jsonParses resp.text = true) →
        callbackCount (performLeaveCallbacks kc beacon jsonParses err resp) = 1)
    ∧ (kc.subscribeKey ≠ "" → beacon = .available true →
        performLeaveCallbacks kc beacon jsonParses err resp = .ok [.leaveSynthetic]) := by
  unfold performLeaveCallbacks abstractedXDREnd
  by_cases hkey : kc.subscribeKey = ""
  · rw [if_pos hkey]
    refine ⟨by simp [callbackCount], fun _ _ => by simp [callbackCount], fun hk _ => absurd hkey hk⟩
  · rw [if_neg hkey]
    cases beacon with
    | available b =>
      cases b with
      | true => exact ⟨by simp [callbackCount], fun _ _ => by simp [callbackCount], fun _ _ => rfl⟩
      | false =>
        refine ⟨by simp [callbackCount], fun hb _ => absurd rfl hb, fun _ hb => ?_⟩
        exact absurd hb (by simp)
    | unavailable =>
      cases err with
      | some e =>
        exact ⟨by simp [callbackCount], fun _ _ => by simp [callbackCount],
          fun _ hb => BeaconEnv.noConfusion hb⟩
      | none =>
        cases hre : resp.error with
        | some e =>
          exact ⟨by simp [callbackCount], fun _ _ => by simp [callbackCount],
            fun _ hb => BeaconEnv.noConfusion hb⟩
        | none =>
          refine ⟨?_, fun _ hp => ?_, fun _ hb => BeaconEnv.noConfusion hb⟩
          · by_cases hj : jsonParses resp.text = true
            · simp [hj, callbackCount]
            · simp [Bool.not_eq_true] at hj
              simp [hj, callbackCount]
          · rw [hp rfl rfl rfl]
            simp [callbackCount]

/-- Witness for the amended C7: with no beacon support and a transport error,
the callback runs exactly once. -/
theorem performLeave_callback_discipline_witness :
    callbackCount (performLeaveCallbacks ⟨"subk", "", "", "", "uuid-1", ""⟩
      .unavailable (fun _ => true) (some "ETIMEDOUT") ⟨none, ""⟩) = 1 :=
  (performLeave_callback_discipline ⟨"subk", "", "", "", "uuid-1", ""⟩
      .unavailable (fun _ => true) (some "ETIMEDOUT") ⟨none, ""⟩).2.1
    (fun h => BeaconEnv.noConfusion h)
    (fun _ h _ => Option.noConfusion h)

/-- C8 (code bug): when the transport succeeds (`err` falsy, no `resp.error`)
but the body fails to parse, line 513 throws an uncaught `SyntaxError` out of
the `end` handler — the callback is never invoked, so the failure is neither
reported as a malformed-response error nor as any other error; by contrast a
transport error is reported to the callback. -/
theorem abstractedXDREnd_parse_failure_uncaught :
    abstractedXDREnd (fun _ => false) none ⟨none, "<html>garbage"⟩
      = .error (.parseErr "unexpected token in JSON")
    ∧ callbackCount (abstractedXDREnd (fun _ => false) none ⟨none, "<html>garbage"⟩) = 0
    ∧ abstractedXDREnd (fun _ => false) (some "ECONNREFUSED") ⟨none, ""⟩
      = .ok [.transportError "ECONNREFUSED"] :=
  ⟨rfl, rfl, rfl⟩

/-! ## URL path construction and identifier encoding

`utils.encode` lives in `src/core/utils.js`, which is not part of the sources
provided; it is modelled from the spec.  The URL builders below are the
`url` arrays of the corresponding operations, verbatim from the source. -/

def hexDigit (n : Nat) : Char :=
  if n < 10 then Char.ofNat (48 + n) else Char.ofNat (55 + n)

def percentByte (b : Nat) : String :=
  String.mk [Char.ofNat 37, hexDigit (b / 16), hexDigit (b % 16)]

/-- Characters `encodeURIComponent` leaves unescaped:
alphanumerics and `- _ . ! ~ * ' ( )`. -/
def isUnescapedChar (c : Char) : Bool :=
  c.isAlphanum || c = Char.ofNat 45 || c = Char.ofNat 95 || c = Char.ofNat 46 ||
  c = Char.ofNat 33 || c = Char.ofNat 126 || c = Char.ofNat 42 ||
  c = Char.ofNat 39 || c = Char.ofNat 40 || c = Char.ofNat 41

/-- UTF-8 bytes of one code point. -/
def utf8Bytes (c : Char) : List Nat :=
  let n := c.toNat
  if n < 128 then [n]
  else if n < 2048 then [192 + n / 64, 128 + n % 64]
  else if n < 65536 then [224 + n / 4096, 128 + n / 64 % 64, 128 + n % 64]
  else [240 + n / 262144, 128 + n / 4096 % 64, 128 + n / 64 % 64, 128 + n % 64]

/-- Modelled from the spec: `utils.encode`, the percent-encoding applied to
user-controlled path segments ("segments that are user-controlled identifiers
(channel names, UUIDs) must be percent-encoded"), i.e. JS
`encodeURIComponent`: every character outside the unescaped set is replaced
by the percent-encoding of its UTF-8 bytes. -/
def encodeURIComponent (s : String) : String :=
  String.join (s.toList.map (fun c =>
    if isUnescapedChar c then String.mk [c]
    else String.join ((utf8Bytes c).map percentByte)))

/-- `fetchHistory` URL, networking.js lines 134-137. -/
def fetchHistoryUrl (origin subKey channel : String) : List String :=
  [origin, "v2", "history", "sub-key", subKey, "channel", encodeURIComponent channel]

/-- `performLeave` URL, networking.js lines 283-286. -/
def performLeaveUrl (origin subKey channel : String) : List String :=
  [origin, "v2", "presence", "sub_key", subKey, "channel",
    encodeURIComponent channel, "leave"]

/-- `fetchWhereNow` URL, networking.js lines 335-339. -/
def fetchWhereNowUrl (origin subKey uuid : String) : List String :=
  [origin, "v2", "presence", "sub-key", subKey, "uuid", encodeURIComponent uuid]

/-- `setState` URL, networking.js lines 384-385: `channel` and the keychain
UUID are inserted raw, without `utils.encode`. -/
def setStateUrl (origin subKey channel uuid : String) : List String :=
  [origin, "v2", "presence", "sub-key", subKey, "channel", channel,
    "uuid", uuid, "data"]

/-- `fetchState` URL, networking.js lines 406-407: `channel` and `uuid` are
inserted raw, without `utils.encode`. -/
def fetchStateUrl (origin subKey channel uuid : String) : List String :=
  [origin, "v2", "presence", "sub-key", subKey, "channel", channel, "uuid", uuid]

/-- C9 counterexample: `setState` places the raw channel name in the URL
path; for the channel `"a b"` the path segment is `"a b"`, not its
percent-encoding `"a%20b"`. -/
theorem setState_channel_not_encoded :
    (setStateUrl "http://ps1.pubnub.com" "subk" "a b" "uuid-1")[6]? = some "a b"
    ∧ encodeURIComponent "a b" = "a%20b"
    ∧ ("a b" : String) ≠ "a%20b" :=
  ⟨rfl, by decide, by decide⟩

/-- C9 (amended): history, leave and where-now percent-encode the
user-controlled identifier in their URL path, but set-state and fetch-state
insert the channel and uuid segments unencoded. -/
theorem url_identifier_encoding_per_operation (o k c u : String)
    (hc : encodeURIComponent c ≠ c) (hu : encodeURIComponent u ≠ u) :
    (fetchHistoryUrl o k c)[6]? = some (encodeURIComponent c)
    ∧ (performLeaveUrl o k c)[6]? = some (encodeURIComponent c)
    ∧ (fetchWhereNowUrl o k u)[6]? = some (encodeURIComponent u)
    ∧ (setStateUrl o k c u)[6]? ≠ some (encodeURIComponent c)
    ∧ (setStateUrl o k c u)[8]? ≠ some (encodeURIComponent u)
    ∧ (fetchStateUrl o k c u)[6]? ≠ some (encodeURIComponent c)
    ∧ (fetchStateUrl o k c u)[8]? ≠ some (encodeURIComponent u) := by
  refine ⟨rfl, rfl, rfl, ?_, ?_, ?_, ?_⟩ <;>
    · intro h
      simp only [setStateUrl, fetchStateUrl] at h
      first
        | exact hc (Option.some.inj h).symm
        | exact hu (Option.some.inj h).symm

/-- Witness for the amended C9 at channel `"a b"` and uuid `"u#1"`. -/
theorem url_identifier_encoding_per_operation_witness :
    encodeURIComponent "a b" ≠ "a b"
    ∧ (fetchHistoryUrl "http://ps1.pubnub.com" "subk" "a b")[6]?
        = some (encodeURIComponent "a b")
    ∧ (setStateUrl "http://ps1.pubnub.com" "subk" "a b" "u#1")[6]?
        ≠ some (encodeURIComponent "a b") :=
  ⟨by decide,
   (url_identifier_encoding_per_operation "http://ps1.pubnub.com" "subk" "a b" "u#1"
      (by decide) (by decide)).1,
   (url_identifier_encoding_per_operation "http://ps1.pubnub.com" "subk" "a b" "u#1"
      (by decide) (by decide)).2.2.2.1⟩

end Networking
